import Mathlib

/-!
Shallow embedding of the fastapi-opinionated-starter example repository.

The repository consists of example HTTP route handlers (class-based and
functional controllers), two middlewares, a request-scoped `AuthState`
value holder, and an application bootstrap with a lifespan context.
Handlers are pure functions returning JSON-like dictionaries; the few
effects (event-bus emits, socket emits, log lines) are made explicit as
returned data.
-/

/-- JSON values, as produced by the route handlers (dictionaries, lists,
strings, integers, booleans, and None serialised as null). -/
inductive Json where
  | null : Json
  | bool (b : Bool) : Json
  | int (n : Int) : Json
  | str (s : String) : Json
  | arr (elems : List Json) : Json
  | obj (fields : List (String × Json)) : Json

/-- A Python dict with string keys, modelled as an association list whose
keys are unique (Python dicts cannot hold duplicate keys). -/
abbrev PyDict := List (String × Json)

/-- Dictionary lookup: first entry whose key matches. On a dict with unique
keys this is exactly Python `d[k]` / `d.get(k)`. -/
def dictGet (d : PyDict) (key : String) : Option Json :=
  match d with
  | [] => none
  | (k, v) :: rest => if k = key then some v else dictGet rest key

/-- Dictionary update `d[k] = v`: overwrite the entry in place when the key
is present, append otherwise. This is Python dict insertion order. -/
def dictSet (d : PyDict) (key : String) (v : Json) : PyDict :=
  match d with
  | [] => [(key, v)]
  | (k, v0) :: rest => if k = key then (k, v) :: rest else (k, v0) :: dictSet rest key v

/-- The Python dict-literal splat `\x7b...base, **user\x7d`: start from the
literal entries and set each entry of `user` in order, later keys
overriding earlier ones. -/
def dictLiteralMerge (base : PyDict) (user : PyDict) : PyDict :=
  user.foldl (fun d kv => dictSet d kv.1 kv.2) base

/-- True exactly on JSON objects (Python dicts). -/
def Json.isObj : Json → Bool
  | Json.obj _ => true
  | _ => false

/-! Class-based `UsersController` (`@Controller("/users", group="CLASSBASED-USERS")`). -/
namespace UsersController

/-- `@Get("/")` handler: `return \x7b"message": "List class-based"\x7d`. -/
def list : Json := Json.obj [("message", Json.str "List class-based")]

/-- `@Post("/create")` handler. -/
def create : Json := Json.obj [("message", Json.str "UsersController created successfully")]

/-- `@Put("/update")` handler. -/
def update : Json := Json.obj [("message", Json.str "UsersController updated successfully")]

/-- `@Patch("/partial_update")` handler (source method name `partial_update`). -/
def patchUpdate : Json := Json.obj [("message", Json.str "UsersController updated successfully")]

/-- `@Delete("/delete")` handler. -/
def delete : Json := Json.obj [("message", Json.str "UsersController deleted successfully")]

end UsersController

/-! `MediaController` (`@Controller("/media", group="MEDIA")`). -/
namespace MediaController

/-- `@Get("/")` handler: `return \x7b"message": "List media"\x7d`. -/
def list : Json := Json.obj [("message", Json.str "List media")]

/-- `@Post("/create")` handler. -/
def create : Json := Json.obj [("message", Json.str "MediaController created successfully")]

/-- `@Put("/update")` handler. -/
def update : Json := Json.obj [("message", Json.str "MediaController updated successfully")]

/-- `@Patch("/partial_update")` handler (source method name `partial_update`). -/
def patchUpdate : Json := Json.obj [("message", Json.str "MediaController updated successfully")]

/-- `@Delete("/delete")` handler. -/
def delete : Json := Json.obj [("message", Json.str "MediaController deleted successfully")]

end MediaController

/-! `UserController` from `app/domains/user/controller.py` (`@Controller("/users")`). -/
namespace UserController

/-- `@Get("/")` handler: `return ["john", "budi"]`. -/
def list : Json := Json.arr [Json.str "john", Json.str "budi"]

/-- `@Post("/create")` handler: `return \x7b"ok": True\x7d`. -/
def create : Json := Json.obj [("ok", Json.bool true)]

end UserController

/-! `GetUserController` (`@Controller("/get_user", group="GET_USER")`). -/
namespace GetUserController

/-- `@Get("/\x7buser_id\x7d")` handler:
`return \x7b"user_id": user_id, "name": "John Doe"\x7d`. -/
def get_user (user_id : Int) : Json :=
  Json.obj [("user_id", Json.int user_id), ("name", Json.str "John Doe")]

end GetUserController

/-- C1: each static route handler returns its fixed literal payload:
GET /users/ on the class-based UsersController returns
the object with message "List class-based", GET /media/ returns the object
with message "List media", and POST /users/create on UserController returns
the object with ok = true. -/
theorem static_routes_fixed_payloads :
    UsersController.list = Json.obj [("message", Json.str "List class-based")] ∧
    MediaController.list = Json.obj [("message", Json.str "List media")] ∧
    UserController.create = Json.obj [("ok", Json.bool true)] :=
  ⟨rfl, rfl, rfl⟩

/-- C5: for every integer user_id, GET /get_user/\x7buser_id\x7d returns the
dictionary with user_id echoed from the path parameter and name "John Doe". -/
theorem get_user_echoes_path_param (user_id : Int) :
    GetUserController.get_user user_id =
      Json.obj [("user_id", Json.int user_id), ("name", Json.str "John Doe")] :=
  rfl

/-- C9: PUT /update and PATCH /partial_update on the class-based
UsersController return identical payloads, both the object with message
"UsersController updated successfully"; likewise on MediaController both
return the object with message "MediaController updated successfully". -/
theorem put_patch_payloads_identical :
    UsersController.update = UsersController.patchUpdate ∧
    UsersController.update = Json.obj [("message", Json.str "UsersController updated successfully")] ∧
    MediaController.update = MediaController.patchUpdate ∧
    MediaController.update = Json.obj [("message", Json.str "MediaController updated successfully")] :=
  ⟨rfl, rfl, rfl, rfl⟩

/-- An emit on the internal event bus: `eventbus_api().emit(topic, user_id=...)`. -/
structure EmitCall where
  topic : String
  user_id : Int

/-- An emit on the socket API: `socket_api().emit(event, payload)`. -/
structure SocketEmit where
  event : String
  payload : Json

/-! Functional controller `app/domains/functional-based/controllers/users.py`
(the hyphenated module). Handlers carry their effects (event-bus emits,
socket emits, log lines) explicitly in the returned value. -/

/-- `@Get("/users-i")` handler `list_users`: emits `user.retrieved` with
`user_id=1` on the event bus and returns the two-element user list. -/
def list_users : List EmitCall × Json :=
  ([{ topic := "user.retrieved", user_id := 1 }],
   Json.arr [Json.obj [("id", Json.int 1), ("name", Json.str "Alice")],
             Json.obj [("id", Json.int 2), ("name", Json.str "Bob")]])

/-- `@OnInternalEvent("user.retrieved")` subscriber: logs the handled
user_id. The returned list is the log lines it writes. -/
def handle_user_retrieved_event (user_id : Int) : List String :=
  ["User retrieved event handled for user_id: " ++ toString user_id]

/-- The event-bus subscription table declared in this repository: one
subscriber, on topic `user.retrieved`. -/
def eventbusSubscriptions : List (String × (Int → List String)) :=
  [("user.retrieved", handle_user_retrieved_event)]

/-- Event-bus delivery: an emitted call is handed to every subscriber whose
topic matches; each reaction is that subscriber's log output. -/
def eventbusDispatch (c : EmitCall) : List (List String) :=
  (eventbusSubscriptions.filter (fun s => s.1 == c.topic)).map (fun s => s.2 c.user_id)

/-- The dict built in both echo handlers: Python `\x7b"id": 3, **user\x7d`. -/
def fbH_create_user_dict (user : PyDict) : PyDict :=
  dictLiteralMerge [("id", Json.int 3)] user

/-- `@Post("/users")` handler `create_user` (hyphenated module):
`return \x7b"id": 3, **user\x7d`. -/
def fbH_create_user_post (user : PyDict) : Json :=
  Json.obj (fbH_create_user_dict user)

/-- `@Get("/users")` handler `create_user` (hyphenated module), same body:
`return \x7b"id": 3, **user\x7d`. -/
def fbH_create_user_get (user : PyDict) : Json :=
  Json.obj (fbH_create_user_dict user)

/-- `@Get("/emit_socket_event")` handler: emits `custom_event` on the socket
API and falls off the end of the function, so it returns Python `None`,
serialised as JSON null. -/
def emit_socket_event : List SocketEmit × Json :=
  ([{ event := "custom_event", payload := Json.obj [("data", Json.str "Hello from FastAPI!")] }],
   Json.null)

/-- C4: GET /users-i emits exactly one event, on topic `user.retrieved`
carrying user identifier 1, returns the two-element list of Alice and Bob,
and event-bus dispatch of that one emit invokes exactly
handle_user_retrieved_event with user_id 1. -/
theorem list_users_emits_one_event :
    list_users.1 = [{ topic := "user.retrieved", user_id := 1 }] ∧
    list_users.1.length = 1 ∧
    list_users.2 = Json.arr [Json.obj [("id", Json.int 1), ("name", Json.str "Alice")],
                             Json.obj [("id", Json.int 2), ("name", Json.str "Bob")]] ∧
    list_users.1.map eventbusDispatch = [[handle_user_retrieved_event 1]] ∧
    handle_user_retrieved_event 1 = ["User retrieved event handled for user_id: 1"] :=
  ⟨rfl, rfl, rfl, rfl, rfl⟩

/-- C6 counterexample: not every declared route handler returns a JSON
object. GET /users/ on UserController returns a JSON array, and GET
/emit_socket_event returns JSON null; neither is an object. -/
theorem not_every_route_returns_object :
    Json.isObj UserController.list = false ∧
    Json.isObj emit_socket_event.2 = false :=
  ⟨rfl, rfl⟩

/-! Functional module `app/domains/functional_based` (underscored):
request-scoped state, two middlewares and two error-wrapped handlers. -/

/-- `AuthState` dataclass: a request-scoped value holder with a
current-user mapping and a referer string. -/
structure AuthState where
  current_user : Json
  referer : String

/-- The request as seen by this repository: its headers and the optional
`AuthState` attached to it by `AuthMiddleware`. -/
structure Request where
  headers : List (String × String)
  authState : Option AuthState

/-- Python `headers.get(key, dflt)`: value of the first matching header,
or the default when the header is absent. -/
def headersGet (hs : List (String × String)) (key dflt : String) : String :=
  match hs with
  | [] => dflt
  | (k, v) :: rest => if k = key then v else headersGet rest key dflt

/-- `get_current_user` dependency: dummy implementation returning the
fixed mapping with username "test_user". -/
def get_current_user : Json := Json.obj [("username", Json.str "test_user")]

/-- The state attachment performed by `AuthMiddleware`:
`AuthState(request, current_user=current_user, referer=referer)` with
`current_user` from the dependency and `referer = headers.get("Referer", "")`. -/
def attachAuthState (req : Request) : Request :=
  { req with authState := some { current_user := get_current_user,
                                 referer := headersGet req.headers "Referer" "" } }

/-- `AuthMiddleware`: attaches the `AuthState`, prints a log line, then
unconditionally delegates with `return await Next.run()`. The result pairs
the log lines with whatever the rest of the chain returns. -/
def AuthMiddleware {ρ : Type} (next : Request → ρ) (req : Request) : List String × ρ :=
  (["Auth Middleware: Current User - username=test_user, Referer - " ++
      headersGet req.headers "Referer" ""],
   next (attachAuthState req))

/-- `hello_world` middleware: prints a greeting, then unconditionally
delegates with `return await Next.run()`. -/
def hello_world {ρ : Type} (next : Request → ρ) (req : Request) : List String × ρ :=
  (["Hello, World Middleware!"], next req)

/-- An HTTP response: either a JSON body or a raw response with an explicit
status code and content, as in `fastapi.Response(status_code=..., content=...)`. -/
inductive HttpResponse where
  | json (body : Json)
  | raw (status : Nat) (content : String)

/-- The outcome of running a handler: it either responds or re-raises an
exception to the framework. -/
inductive HandlerStep where
  | respond (r : HttpResponse)
  | raise (e : String)

/-- The try-block body of the POST /users handler (underscored module):
reads the attached `AuthState` and builds the response dict; raises when
the read fails. -/
def fbU_create_user_body (req : Request) (user : PyDict) : Except String Json :=
  match req.authState with
  | some st => Except.ok (Json.obj [("id", Json.int 1), ("user", Json.obj user),
                                    ("current_user", st.current_user),
                                    ("referer", Json.str st.referer)])
  | none => Except.error "AuthState is not attached to the request"

/-- The POST /users handler (underscored module) around its try-block
outcome: on success return the dict; on any exception, log
`Error in create_user: ...` and return a 500 response with content
"Internal Server Error". It never re-raises. -/
def fbU_create_user_post (outcome : Except String Json) : List String × HandlerStep :=
  match outcome with
  | Except.ok v => ([], HandlerStep.respond (HttpResponse.json v))
  | Except.error e =>
      (["Error in create_user: " ++ e],
       HandlerStep.respond (HttpResponse.raw 500 "Internal Server Error"))

/-- The try-block body of the GET /users handler (underscored module):
reads the attached `AuthState` and builds the response dict. -/
def fbU_get_users_body (req : Request) : Except String Json :=
  match req.authState with
  | some st => Except.ok (Json.obj [("id", Json.int 3), ("user", st.current_user),
                                    ("referer", Json.str st.referer)])
  | none => Except.error "AuthState is not attached to the request"

/-- The GET /users handler (underscored module) around its try-block
outcome: same generic catch-all as the POST handler. -/
def fbU_get_users (outcome : Except String Json) : List String × HandlerStep :=
  match outcome with
  | Except.ok v => ([], HandlerStep.respond (HttpResponse.json v))
  | Except.error e =>
      (["Error in create_user: " ++ e],
       HandlerStep.respond (HttpResponse.raw 500 "Internal Server Error"))

/-- The GET /users route as deployed: `@UseMiddleware(AuthMiddleware)`
wrapping the handler, so the handler sees the request after the middleware
attached the state. -/
def fbU_get_users_route (req : Request) : List String × (List String × HandlerStep) :=
  AuthMiddleware (fun r => fbU_get_users (fbU_get_users_body r)) req

/-- The POST /users route as deployed:
`@UseMiddleware(hello_world, AuthMiddleware)` wrapping the handler, with
hello_world outermost, so the handler sees the request after both
middlewares ran and the state is attached. -/
def fbU_create_user_route (user : PyDict) (req : Request) :
    List String × (List String × (List String × HandlerStep)) :=
  hello_world
    (fun r1 => AuthMiddleware (fun r2 => fbU_create_user_post (fbU_create_user_body r2 user)) r1)
    req

/-- C2: whenever the try-block of either error-wrapped handler raises, the
handler catches it, logs the error, and responds with status 500 and body
"Internal Server Error"; for every outcome the handlers respond and never
re-raise. -/
theorem error_wrapped_handlers_return_500 (e : String) :
    fbU_create_user_post (Except.error e) =
      (["Error in create_user: " ++ e],
       HandlerStep.respond (HttpResponse.raw 500 "Internal Server Error")) ∧
    fbU_get_users (Except.error e) =
      (["Error in create_user: " ++ e],
       HandlerStep.respond (HttpResponse.raw 500 "Internal Server Error")) ∧
    (∀ o : Except String Json, ∃ logs r, fbU_create_user_post o = (logs, HandlerStep.respond r)) ∧
    (∀ o : Except String Json, ∃ logs r, fbU_get_users o = (logs, HandlerStep.respond r)) := by
  refine ⟨rfl, rfl, ?_, ?_⟩ <;>
    · intro o
      cases o <;> exact ⟨_, _, rfl⟩

/-- Helper: `headers.get(key, dflt)` returns the default when no header
has the requested key. -/
theorem headersGet_absent (hs : List (String × String)) (key dflt : String)
    (h : ∀ p ∈ hs, p.1 ≠ key) : headersGet hs key dflt = dflt := by
  induction hs with
  | nil => rfl
  | cons p rest ih =>
      obtain ⟨k, v⟩ := p
      have hp : k ≠ key := h (k, v) (List.mem_cons_self _ _)
      simp only [headersGet, if_neg hp]
      exact ih fun q hq => h q (List.mem_cons_of_mem _ hq)

/-- C3: the middleware sets both AuthState fields before they are read:
for every request, the attached state has current_user equal to the fixed
test_user mapping and referer equal to the Referer header with default ""
(so the empty string when the header is absent), and the guarded GET /users
handler subsequently reads exactly those two values into its response. -/
theorem authstate_set_before_read (req : Request) :
    (attachAuthState req).authState =
      some { current_user := Json.obj [("username", Json.str "test_user")],
             referer := headersGet req.headers "Referer" "" } ∧
    ((∀ p ∈ req.headers, p.1 ≠ "Referer") → headersGet req.headers "Referer" "" = "") ∧
    (fbU_get_users_route req).2 =
      ([], HandlerStep.respond (HttpResponse.json (Json.obj
        [("id", Json.int 3),
         ("user", Json.obj [("username", Json.str "test_user")]),
         ("referer", Json.str (headersGet req.headers "Referer" ""))]))) := by
  refine ⟨rfl, ?_, rfl⟩
  intro h
  exact headersGet_absent req.headers "Referer" "" h

/-- C3 witness: on a concrete request with no headers and no prior state,
the middleware attaches current_user = test_user mapping and referer = "". -/
theorem authstate_set_before_read_witness :
    (attachAuthState { headers := [], authState := none }).authState =
      some { current_user := Json.obj [("username", Json.str "test_user")], referer := "" } ∧
    headersGet ([] : List (String × String)) "Referer" "" = "" := by
  refine ⟨?_, ?_⟩
  · exact (authstate_set_before_read { headers := [], authState := none }).1
  · exact (authstate_set_before_read { headers := [], authState := none }).2.1
      (by intro p hp; simp at hp)

/-- C10: neither middleware short-circuits: hello_world returns the result
of the rest of the chain on the unchanged request, and AuthMiddleware
returns the result of the rest of the chain on the request with the
AuthState attached — in both cases the delegated response passes through
unmodified, the only other effect being the log line. -/
theorem middlewares_never_short_circuit {ρ : Type} (next : Request → ρ) (req : Request) :
    (hello_world next req).2 = next req ∧
    (AuthMiddleware next req).2 = next (attachAuthState req) :=
  ⟨rfl, rfl⟩

/-! Application bootstrap `main.py`: the lifespan context. -/

/-- Where, if anywhere, an exception reaches the lifespan context: during
the startup section (before the yield) or during the shutdown section
(thrown into or after the yield). -/
inductive LifespanFault where
  | ok
  | duringStartup (e : String)
  | duringShutdown (e : String)

/-- The observable outcome of one run of the lifespan context: the lines it
printed, the exception it re-raised (if any), and how many times the
try-block was attempted. -/
structure LifespanRun where
  logs : List String
  reraised : Option String
  attempts : Nat

/-- The `lifespan` async context of `main.py`: prints the startup line,
yields, prints the shutdown line; `except Exception as e` prints
`Lifespan error: ...` and does nothing else — no re-raise, no retry. -/
def lifespan : LifespanFault → LifespanRun
  | LifespanFault.ok =>
      { logs := ["App is completed initialization.", "App is shutting down..."],
        reraised := none, attempts := 1 }
  | LifespanFault.duringStartup e =>
      { logs := ["Lifespan error: " ++ e], reraised := none, attempts := 1 }
  | LifespanFault.duringShutdown e =>
      { logs := ["App is completed initialization.", "Lifespan error: " ++ e],
        reraised := none, attempts := 1 }

/-- C7: any exception reaching the lifespan context during startup or
shutdown is caught; the context prints a message containing the exception
and takes no recovery action — it never re-raises (reraised = none for
every fault) and never retries (the body is attempted exactly once). -/
theorem lifespan_catches_and_logs (e : String) (f : LifespanFault) :
    (lifespan f).reraised = none ∧
    (lifespan f).attempts = 1 ∧
    (lifespan (LifespanFault.duringStartup e)).logs = ["Lifespan error: " ++ e] ∧
    (lifespan (LifespanFault.duringShutdown e)).logs =
      ["App is completed initialization.", "Lifespan error: " ++ e] := by
  refine ⟨?_, ?_, rfl, rfl⟩ <;> cases f <;> rfl

/-! Lemmas about Python dict construction, for the echo handlers. -/

/-- Looking up a key absent from a dict yields none. -/
theorem dictGet_eq_none_of_not_mem (d : PyDict) (key : String)
    (h : key ∉ d.map Prod.fst) : dictGet d key = none := by
  induction d with
  | nil => rfl
  | cons p rest ih =>
      obtain ⟨k, v⟩ := p
      have hk : k ≠ key := by
        intro hkk
        exact h (by simp [hkk])
      simp only [dictGet, if_neg hk]
      exact ih fun hm => h (by simp [List.mem_cons]; right; simpa using hm)

/-- Setting a key then reading it back yields the written value. -/
theorem dictGet_dictSet_self (d : PyDict) (key : String) (v : Json) :
    dictGet (dictSet d key v) key = some v := by
  induction d with
  | nil => simp [dictSet, dictGet]
  | cons p rest ih =>
      obtain ⟨k, v0⟩ := p
      by_cases hk : k = key
      · simp [dictSet, dictGet, hk]
      · simp only [dictSet, if_neg hk, dictGet, if_neg hk]
        exact ih

/-- Setting one key leaves lookups of other keys unchanged. -/
theorem dictGet_dictSet_ne (d : PyDict) (key other : String) (v : Json)
    (h : other ≠ key) : dictGet (dictSet d key v) other = dictGet d other := by
  induction d with
  | nil => simp [dictSet, dictGet, Ne.symm h]
  | cons p rest ih =>
      obtain ⟨k, v0⟩ := p
      by_cases hk : k = key
      · subst hk
        simp [dictSet, dictGet, Ne.symm h]
      · simp only [dictSet, if_neg hk, dictGet]
        by_cases hko : k = other
        · simp [hko]
        · simp only [if_neg hko]
          exact ih

/-- Lookup in a splat merge: entries of `user` (with unique keys) win over
the base literal, and keys absent from `user` fall back to the base. -/
theorem dictGet_dictLiteralMerge (user : PyDict) :
    ∀ (base : PyDict) (key : String), (user.map Prod.fst).Nodup →
      dictGet (dictLiteralMerge base user) key =
        ((dictGet user key).map some).getD (dictGet base key) := by
  induction user with
  | nil => intro base key _; rfl
  | cons p rest ih =>
      intro base key h
      obtain ⟨k0, v0⟩ := p
      have h2 : (k0 :: rest.map Prod.fst).Nodup := by simpa using h
      have hnd : (rest.map Prod.fst).Nodup := (List.nodup_cons.mp h2).2
      have hk0 : k0 ∉ rest.map Prod.fst := (List.nodup_cons.mp h2).1
      have hstep : dictLiteralMerge base ((k0, v0) :: rest) =
          dictLiteralMerge (dictSet base k0 v0) rest := rfl
      rw [hstep, ih (dictSet base k0 v0) key hnd]
      by_cases hk : k0 = key
      · subst hk
        have hnone : dictGet rest k0 = none := dictGet_eq_none_of_not_mem rest k0 hk0
        simp [dictGet, hnone, dictGet_dictSet_self]
      · have hne : key ≠ k0 := fun hkk => hk hkk.symm
        simp only [dictGet, if_neg hk]
        cases hrest : dictGet rest key with
        | some v => simp
        | none => simp [dictGet_dictSet_ne base k0 key v0 hne]

/-- C8: both echo handlers return Python `\x7b"id": 3, **user\x7d`: the two
handlers agree, the response's id field is the client-supplied "id" value
when `user` has that key and the literal 3 otherwise, and every other key
is passed through from `user` unchanged. -/
theorem echo_handlers_id_override (user : PyDict) (h : (user.map Prod.fst).Nodup) :
    fbH_create_user_get user = fbH_create_user_post user ∧
    fbH_create_user_post user = Json.obj (fbH_create_user_dict user) ∧
    dictGet (fbH_create_user_dict user) "id" = some ((dictGet user "id").getD (Json.int 3)) ∧
    (∀ k, k ≠ "id" → dictGet (fbH_create_user_dict user) k = dictGet user k) := by
  refine ⟨rfl, rfl, ?_, ?_⟩
  · have hm := dictGet_dictLiteralMerge user [("id", Json.int 3)] "id" h
    rw [show fbH_create_user_dict user = dictLiteralMerge [("id", Json.int 3)] user from rfl,
        hm]
    cases hu : dictGet user "id" with
    | some v => simp
    | none => simp [dictGet]
  · intro k hk
    have hm := dictGet_dictLiteralMerge user [("id", Json.int 3)] k h
    rw [show fbH_create_user_dict user = dictLiteralMerge [("id", Json.int 3)] user from rfl,
        hm]
    have hbase : dictGet [("id", Json.int 3)] k = none := by
      simp [dictGet, Ne.symm hk]
    rw [hbase]
    cases dictGet user k <;> simp

/-- C8 witness: on concrete inputs, a client-supplied "id" (9) overrides
the literal 3, and without an "id" key the response has id = 3 and passes
the "name" key through. -/
theorem echo_handlers_id_override_witness :
    dictGet (fbH_create_user_dict [("id", Json.int 9)]) "id" = some (Json.int 9) ∧
    dictGet (fbH_create_user_dict [("name", Json.str "Ann")]) "id" = some (Json.int 3) ∧
    dictGet (fbH_create_user_dict [("name", Json.str "Ann")]) "name" = some (Json.str "Ann") := by
  refine ⟨?_, ?_, ?_⟩
  · exact (echo_handlers_id_override [("id", Json.int 9)] (by simp)).2.2.1
  · exact (echo_handlers_id_override [("name", Json.str "Ann")] (by simp)).2.2.1
  · exact (echo_handlers_id_override [("name", Json.str "Ann")] (by simp)).2.2.2 "name"
      (by simp)

/-- C6 amended: every declared HTTP route handler returns a JSON value for
a well-formed request; GET /emit_socket_event returns null, GET /users/ on
UserController and GET /users-i return small JSON arrays, and every other
declared handler — including POST /users and GET /users of the underscored
functional_based module, whose well-formed requests pass through their
declared middleware chain attaching the AuthState — returns a small JSON
object. -/
theorem routes_return_json_values (user_id : Int) (user : PyDict) :
    Json.isObj UsersController.list = true ∧
    Json.isObj UsersController.create = true ∧
    Json.isObj UsersController.update = true ∧
    Json.isObj UsersController.patchUpdate = true ∧
    Json.isObj UsersController.delete = true ∧
    Json.isObj MediaController.list = true ∧
    Json.isObj MediaController.create = true ∧
    Json.isObj MediaController.update = true ∧
    Json.isObj MediaController.patchUpdate = true ∧
    Json.isObj MediaController.delete = true ∧
    Json.isObj UserController.create = true ∧
    Json.isObj (GetUserController.get_user user_id) = true ∧
    Json.isObj (fbH_create_user_post user) = true ∧
    Json.isObj (fbH_create_user_get user) = true ∧
    (∀ req : Request, (fbU_create_user_route user req).2.2.2 =
      HandlerStep.respond (HttpResponse.json (Json.obj
        [("id", Json.int 1), ("user", Json.obj user),
         ("current_user", Json.obj [("username", Json.str "test_user")]),
         ("referer", Json.str (headersGet req.headers "Referer" ""))]))) ∧
    (∀ req : Request, (fbU_get_users_route req).2.2 =
      HandlerStep.respond (HttpResponse.json (Json.obj
        [("id", Json.int 3),
         ("user", Json.obj [("username", Json.str "test_user")]),
         ("referer", Json.str (headersGet req.headers "Referer" ""))]))) ∧
    UserController.list = Json.arr [Json.str "john", Json.str "budi"] ∧
    list_users.2 = Json.arr [Json.obj [("id", Json.int 1), ("name", Json.str "Alice")],
                             Json.obj [("id", Json.int 2), ("name", Json.str "Bob")]] ∧
    emit_socket_event.2 = Json.null :=
  ⟨rfl, rfl, rfl, rfl, rfl, rfl, rfl, rfl, rfl, rfl, rfl, rfl, rfl, rfl,
   fun _ => rfl, fun _ => rfl, rfl, rfl, rfl⟩
